import Mathlib

/-!
Verification of the source-acquisition layer of xbstrap
(`xbstrap/vcs_utils.py`): the status evaluator `check_repo` and the
fetch executor `fetch_repo`.

The embedding is shallow: the Python descriptor dictionary becomes a
record of optional fields, the filesystem and the external subprocesses
become explicit environment records of pure functions, and each function
returns the list of side effects it performed together with a normal
result or a fatal outcome (Python exceptions).
-/

/-- Result type of the status evaluator, as in the source. -/
inductive RepoStatus
  | GOOD
  | MISSING
  | OUTDATED
  deriving DecidableEq, Repr

/-- Fatal Python exceptions that the evaluator itself can raise:
a failing `assert` statement, a dictionary `KeyError`, and a failing
tuple unpacking (`ValueError`). -/
inductive Crash
  | assertionFailed
  | keyError
  | valueError
  deriving DecidableEq, Repr

/-- One observable side effect: a read-only subprocess query, a log line,
a directory creation, a state-changing subprocess call, or a download. -/
inductive Effect
  | logInfo (msg : String)
  | showRefQuery (cwd ref : String)
  | lsRemoteQuery (url ref : String)
  | hgManifestQuery (cwd rev : String)
  | try_mkdir (path : String)
  | checkCall (cwd : Option String) (args : List String)
  | download (url file : String)
  deriving DecidableEq, Repr

/-- Whether an effect mutates filesystem or repository state.
The queries and the log line are read-only. -/
def Effect.isMutation : Effect → Bool
  | .try_mkdir _ => true
  | .checkCall _ _ => true
  | .download _ _ => true
  | _ => false

/-- The per-source descriptor dictionary `src._this_yml`: key presence is
modelled by `Option`; `disable_shallow_fetch` is read with default
`False` in the source, so it is modelled as a plain `Bool`. -/
structure Yml where
  git : Option String := none
  hg : Option String := none
  svn : Option String := none
  url : Option String := none
  tag : Option String := none
  branch : Option String := none
  commit : Option String := none
  disable_shallow_fetch : Bool := false
  deriving DecidableEq, Repr

/-- The source object: its name, descriptor dictionary (`_this_yml`),
paths and the rolling-version flag. -/
structure Src where
  name : String
  this_yml : Yml
  source_dir : String
  source_archive_file : String
  is_rolling_version : Bool := false
  deriving Repr

/-- Environment seen by `check_repo`: directory existence
(`os.path.isdir`), the stdout lines of a successful
`git show-ref --verify` in a given directory for a given ref (`none`
models a nonzero exit), the stdout lines of a successful
`git ls-remote --exit-code` for a url and ref, the exit status of
`hg manifest` for a directory and revision, and file accessibility
(`os.access`). -/
structure FsEnv where
  isdir : String → Bool
  showRef : String → String → Option (List String)
  lsRemote : String → String → Option (List String)
  hgManifestOk : String → String → Bool
  access : String → Bool

/-- Python single-character string split, keeping empty pieces:
the semantics of `str.split(sep)` with a one-character separator. -/
def split_on_char (sep : Char) : List Char → List (List Char)
  | [] => [[]]
  | c :: rest =>
    match split_on_char sep rest with
    | [] => if c = sep then [[], []] else [[c]]
    | h :: t => if c = sep then [] :: h :: t else (c :: h) :: t

/-- Split of a string on a one-character separator, Python style. -/
def pysplit (sep : Char) (s : String) : List String :=
  (split_on_char sep s.data).map (fun l => String.mk l)

/-- Embedding of the inner `get_local_commit` of `check_repo`: run
`git show-ref --verify ref` in `dir`; a nonzero exit yields `none`;
otherwise assert exactly one output line and unpack it at the space
separator. -/
def get_local_commit (env : FsEnv) (dir ref : String) : Except Crash (Option String) :=
  match env.showRef dir ref with
  | none => .ok none
  | some out =>
    match out with
    | [line] =>
      match pysplit ' ' line with
      | [commit, _outref] => .ok (some commit)
      | _ => .error .valueError
    | _ => .error .assertionFailed

/-- Embedding of the inner `get_remote_commit` of `check_repo`: run
`git ls-remote --exit-code url ref`; a nonzero exit yields `none`;
otherwise assert exactly one output line and unpack it at the tab
separator. -/
def get_remote_commit (env : FsEnv) (url ref : String) : Except Crash (Option String) :=
  match env.lsRemote url ref with
  | none => .ok none
  | some out =>
    match out with
    | [line] =>
      match pysplit '\t' line with
      | [commit, _outref] => .ok (some commit)
      | _ => .error .valueError
    | _ => .error .assertionFailed

/-- The upstream ref and the tracking ref chosen by the git branch of
`check_repo`: both are `refs/tags/<tag>` for a tag; for a branch the
upstream ref is `refs/heads/<branch>` and the tracking ref is
`refs/remotes/origin/<branch>`; a missing `branch` key is a `KeyError`. -/
def git_refs (yml : Yml) : Except Crash (String × String) :=
  match yml.tag with
  | some t => .ok ("refs/tags/" ++ t, "refs/tags/" ++ t)
  | none =>
    match yml.branch with
    | some b => .ok ("refs/heads/" ++ b, "refs/remotes/origin/" ++ b)
    | none => .error .keyError

/-- Embedding of `check_repo(src, check_remotes=...)`: dispatch on the
origin kind in source order (git, hg, svn, plain url), returning the
performed effects together with the status or a crash. -/
def check_repo (env : FsEnv) (src : Src) (check_remotes : Nat) :
    List Effect × Except Crash RepoStatus :=
  let yml := src.this_yml
  match yml.git with
  | some git_url =>
    if !(env.isdir src.source_dir) then ([], .ok .MISSING)
    else
      match git_refs yml with
      | .error c => ([], .error c)
      | .ok (ref, tracking_ref) =>
        let effL := [Effect.showRefQuery src.source_dir tracking_ref]
        match get_local_commit env src.source_dir tracking_ref with
        | .error c => (effL, .error c)
        | .ok none => (effL, .ok .MISSING)
        | .ok (some local_commit) =>
          let do_check_remote :=
            decide (2 ≤ check_remotes) || (decide (1 ≤ check_remotes) && yml.tag.isNone)
          if do_check_remote then
            let effR := effL ++
              [Effect.logInfo ("Checking for remote updates of " ++ src.name),
               Effect.lsRemoteQuery git_url ref]
            match get_remote_commit env git_url ref with
            | .error c => (effR, .error c)
            | .ok remote_commit =>
              if remote_commit ≠ some local_commit then (effR, .ok .OUTDATED)
              else (effR, .ok .GOOD)
          else (effL, .ok .GOOD)
  | none =>
    match yml.hg with
    | some _ =>
      if !(env.isdir src.source_dir) then ([], .ok .MISSING)
      else
        match (match yml.tag with | some t => some t | none => yml.branch) with
        | none => ([], .error .keyError)
        | some rev =>
          let eff := [Effect.hgManifestQuery src.source_dir rev]
          if !(env.hgManifestOk src.source_dir rev) then (eff, .ok .MISSING)
          else (eff, .ok .GOOD)
    | none =>
      match yml.svn with
      | some _ =>
        if !(env.isdir src.source_dir) then ([], .ok .MISSING)
        else ([], .ok .GOOD)
      | none =>
        match yml.url with
        | none => ([], .error .assertionFailed)
        | some _ =>
          if !(env.access src.source_archive_file) then ([], .ok .MISSING)
          else ([], .ok .GOOD)

/-- Fatal outcomes of `fetch_repo`.

Modelled from the spec: the class `GenericException` raised by
`fetch_repo` is defined elsewhere in the repository (it is not part of
`vcs_utils.py`); per the spec it is a fatal, user-facing error carrying
a remediation message, distinct from a subprocess failure
(`subprocess.CalledProcessError`) and from a download failure. -/
inductive FetchErr
  | genericException (msg : String)
  | calledProcessError (cwd : Option String) (args : List String)
  | urlError (url : String)
  | crash (c : Crash)
  deriving DecidableEq, Repr

/-- The relevant part of the build configuration `cfg`:
`cfg._commit_yml.get("commits", dict()).get(name, dict()).get("fixed_commit", None)`
is modelled as a map from source name to the optional pinned commit. -/
structure Cfg where
  fixed_commit : String → Option String

/-- Environment seen by `fetch_repo`: executable lookup (`shutil.which`),
directory existence, the exit status of a `subprocess.check_call` (keyed
by working directory and argument list), and download success. -/
structure FetchEnv where
  which : String → Option String
  isdir : String → Bool
  callOk : Option String → List String → Bool
  downloadOk : String → Bool

/-- The argument list of the single `git fetch` invocation built by the
git branch of `fetch_repo` (source lines 104-124): compute `shallow`
from the disable flag and the rolling-version flag, then branch on tag
versus branch, where a pinned commit (descriptor `commit` key or
`fixed_commit` record) forces a full fetch and `--depth=1` is appended
for a branch only on first initialization. -/
def git_fetch_args (git git_url : String) (source : Yml) (fixed_commit : Option String)
    (is_rolling_version : Bool) (init : Bool) : Except Crash (List String) :=
  let shallow := !source.disable_shallow_fetch
  let shallow := if is_rolling_version then false else shallow
  match source.tag with
  | some t =>
    .ok ([git, "fetch"] ++ (if shallow then ["--depth=1"] else []) ++ [git_url, "tag", t])
  | none =>
    match source.branch with
    | none => .error .keyError
    | some b =>
      let shallow := if source.commit.isSome || fixed_commit.isSome then false else shallow
      .ok ([git, "fetch"] ++ (if init && shallow then ["--depth=1"] else [])
        ++ [git_url, "refs/heads/" ++ b ++ ":" ++ "refs/remotes/origin/" ++ b])

/-- Embedding of `fetch_repo(cfg, src)`: dispatch on the origin kind in
source order; each branch first locates its external tool, failing with
the user-facing error when absent; the git branch initializes the
repository on first use and then runs the fetch with `git_fetch_args`. -/
def fetch_repo (env : FetchEnv) (cfg : Cfg) (src : Src) :
    List Effect × Except FetchErr Unit :=
  let source := src.this_yml
  match source.git with
  | some git_url =>
    match env.which "git" with
    | none => ([], .error (.genericException "git not found; please install it and retry"))
    | some git =>
      let fixed_commit := cfg.fixed_commit src.name
      let init := !(env.isdir src.source_dir)
      let initArgs1 := [git, "init"]
      let initArgs2 := [git, "remote", "add", "origin", git_url]
      if init && !(env.callOk (some src.source_dir) initArgs1) then
        ([Effect.try_mkdir src.source_dir, Effect.checkCall (some src.source_dir) initArgs1],
         .error (.calledProcessError (some src.source_dir) initArgs1))
      else if init && !(env.callOk (some src.source_dir) initArgs2) then
        ([Effect.try_mkdir src.source_dir, Effect.checkCall (some src.source_dir) initArgs1,
          Effect.checkCall (some src.source_dir) initArgs2],
         .error (.calledProcessError (some src.source_dir) initArgs2))
      else
        let initEffs :=
          if init then
            [Effect.try_mkdir src.source_dir, Effect.checkCall (some src.source_dir) initArgs1,
             Effect.checkCall (some src.source_dir) initArgs2]
          else []
        match git_fetch_args git git_url source fixed_commit src.is_rolling_version init with
        | .error c => (initEffs, .error (.crash c))
        | .ok args =>
          (initEffs ++ [Effect.checkCall (some src.source_dir) args],
           if env.callOk (some src.source_dir) args then .ok ()
           else .error (.calledProcessError (some src.source_dir) args))
  | none =>
    match source.hg with
    | some hg_url =>
      match env.which "hg" with
      | none => ([], .error (.genericException "mercurial (hg) not found; please install it and retry"))
      | some hg =>
        let args := [hg, "clone", hg_url, src.source_dir]
        ([Effect.try_mkdir src.source_dir, Effect.checkCall none args],
         if env.callOk none args then .ok () else .error (.calledProcessError none args))
    | none =>
      match source.svn with
      | some svn_url =>
        match env.which "svn" with
        | none => ([], .error (.genericException "subversion (svn) not found; please install it and retry"))
        | some svn =>
          let args := [svn, "co", svn_url, src.source_dir]
          ([Effect.try_mkdir src.source_dir, Effect.checkCall none args],
           if env.callOk none args then .ok () else .error (.calledProcessError none args))
      | none =>
        match source.url with
        | none => ([], .error (.crash .assertionFailed))
        | some url =>
          ([Effect.try_mkdir src.source_dir, Effect.download url src.source_archive_file],
           if env.downloadOk url then .ok () else .error (.urlError url))

/-- Whether a built `git fetch` argument list contains the
depth-limiting flag. -/
def passesDepthB : Except Crash (List String) → Bool
  | .ok args => args.any (fun s => s == "--depth=1")
  | .error _ => false

/-- Whether one effect is a subprocess call whose argument list contains
the depth-limiting flag. -/
def callArgsDepthB : Effect → Bool
  | .checkCall _ args => args.any (fun s => s == "--depth=1")
  | _ => false

/-- Whether any subprocess call in an effect list carries the
depth-limiting flag. -/
def fetchPassesDepthB (effs : List Effect) : Bool :=
  effs.any callArgsDepthB

/-- Concrete git descriptor tracking a branch. -/
def ymlBranch : Yml :=
  { git := some "https://example/repo.git", branch := some "main" }

/-- Concrete git descriptor tracking a tag. -/
def ymlTag : Yml :=
  { git := some "https://example/repo.git", tag := some "v1.0" }

/-- Concrete mercurial descriptor. -/
def ymlHg : Yml :=
  { hg := some "https://example/hgrepo", branch := some "default" }

/-- Concrete plain-archive descriptor. -/
def ymlArchive : Yml :=
  { url := some "https://example/archive.tar.gz" }

/-- Concrete source object wrapping a descriptor. -/
def mkSrc (y : Yml) (rolling : Bool := false) : Src :=
  { name := "demo", this_yml := y, source_dir := "/var/lib/src/demo",
    source_archive_file := "/var/lib/src/demo.tar.gz", is_rolling_version := rolling }

/-- Filesystem state: working copy present, local ref resolvable, every
remote query failing. -/
def envNoRemote : FsEnv :=
  { isdir := fun _ => true,
    showRef := fun _ _ => some ["abc refs/remotes/origin/main"],
    lsRemote := fun _ _ => none,
    hgManifestOk := fun _ _ => true,
    access := fun _ => true }

/-- Filesystem state: working copy present, local ref resolvable, remote
query returning the same commit. -/
def envRemoteSame : FsEnv :=
  { envNoRemote with lsRemote := fun _ _ => some ["abc\trefs/heads/main"] }

/-- Filesystem state: nothing exists. -/
def envAbsent : FsEnv :=
  { isdir := fun _ => false,
    showRef := fun _ _ => none,
    lsRemote := fun _ _ => none,
    hgManifestOk := fun _ _ => false,
    access := fun _ => false }

/-- Filesystem state: the source directory does not exist but the source
archive file does. -/
def envArchiveOnly : FsEnv :=
  { envAbsent with access := fun _ => true }

/-- Fetch environment: no external tool installed. -/
def fenvNoTools : FetchEnv :=
  { which := fun _ => none, isdir := fun _ => false,
    callOk := fun _ _ => true, downloadOk := fun _ => true }

/-- Fetch environment: every tool installed, source directory absent
(first initialization), every subprocess succeeding. -/
def fenvInit : FetchEnv :=
  { which := fun t => some t, isdir := fun _ => false,
    callOk := fun _ _ => true, downloadOk := fun _ => true }

/-- Commit record with no pinned commit for any source. -/
def cfgNone : Cfg := ⟨fun _ => none⟩

/-- Commit record pinning commit `deadbeef` for every source. -/
def cfgPin : Cfg := ⟨fun _ => some "deadbeef"⟩

/-- A branch refspec is never the depth-limiting flag: its length alone
rules it out. -/
theorem refspec_ne_depth (b : String) :
    "refs/heads/" ++ b ++ ":" ++ "refs/remotes/origin/" ++ b ≠ "--depth=1" := by
  intro h
  have h2 := congrArg String.length h
  rw [String.length_append, String.length_append, String.length_append,
    String.length_append] at h2
  have e1 : "refs/heads/".length = 11 := rfl
  have e2 : ":".length = 1 := rfl
  have e3 : "refs/remotes/origin/".length = 20 := rfl
  have e4 : "--depth=1".length = 9 := rfl
  rw [e1, e2, e3, e4] at h2
  omega

/-- Claim C10: in the git path of the evaluator, whenever the local
`show-ref` or remote `ls-remote` subprocess exits zero and its output is
a single line splitting into a commit and a ref at the documented
separator, the single-line assertion and the tuple unpacking both
succeed and the commit is extracted: no crash occurs under the protocol
precondition. -/
theorem commit_extraction_total (env : FsEnv) (dir ref url rref : String)
    (lline rline lc lr rc rr : String) :
    (env.showRef dir ref = some [lline] → pysplit ' ' lline = [lc, lr] →
      get_local_commit env dir ref = .ok (some lc))
    ∧ (env.lsRemote url rref = some [rline] → pysplit '\t' rline = [rc, rr] →
      get_remote_commit env url rref = .ok (some rc)) := by
  constructor
  · intro h1 h2
    simp [get_local_commit, h1, h2]
  · intro h1 h2
    simp [get_remote_commit, h1, h2]

/-- Witness for C10 at a concrete protocol-conforming output. -/
theorem commit_extraction_total_witness :
    get_local_commit envNoRemote "/var/lib/src/demo" "refs/remotes/origin/main"
      = .ok (some "abc")
    ∧ get_remote_commit envRemoteSame "https://example/repo.git" "refs/heads/main"
      = .ok (some "abc") := by
  constructor
  · exact (commit_extraction_total envNoRemote "/var/lib/src/demo" "refs/remotes/origin/main"
      "u" "r" "abc refs/remotes/origin/main" "x" "abc" "refs/remotes/origin/main"
      "y" "z").1 rfl rfl
  · exact (commit_extraction_total envRemoteSame "d" "r"
      "https://example/repo.git" "refs/heads/main" "l" "abc\trefs/heads/main"
      "y" "z" "abc" "refs/heads/main").2 rfl rfl

/-- Claim C4: for a git, mercurial, or subversion descriptor, when the
required executable is absent from the PATH, `fetch_repo` fails with the
user-facing `GenericException` carrying the install hint, before any
effect; the error is distinct from a subprocess failure. -/
theorem fetch_tool_missing_fatal (env : FetchEnv) (cfg : Cfg) (src : Src) :
    (∀ u, src.this_yml.git = some u → env.which "git" = none →
      fetch_repo env cfg src =
        ([], .error (.genericException "git not found; please install it and retry")))
    ∧ (∀ u, src.this_yml.git = none → src.this_yml.hg = some u → env.which "hg" = none →
      fetch_repo env cfg src =
        ([], .error (.genericException
          "mercurial (hg) not found; please install it and retry")))
    ∧ (∀ u, src.this_yml.git = none → src.this_yml.hg = none →
      src.this_yml.svn = some u → env.which "svn" = none →
      fetch_repo env cfg src =
        ([], .error (.genericException
          "subversion (svn) not found; please install it and retry")))
    ∧ (∀ m cwd args, FetchErr.genericException m ≠ .calledProcessError cwd args) := by
  refine ⟨?_, ?_, ?_, ?_⟩
  · intro u hu hw
    simp [fetch_repo, hu, hw]
  · intro u hg hu hw
    simp [fetch_repo, hg, hu, hw]
  · intro u hg hh hu hw
    simp [fetch_repo, hg, hh, hu, hw]
  · intro m cwd args
    simp

/-- Witness for C4: with no tool installed, fetching a git branch source
fails with the install hint. -/
theorem fetch_tool_missing_fatal_witness :
    fetch_repo fenvNoTools cfgNone (mkSrc ymlBranch) =
      ([], .error (.genericException "git not found; please install it and retry")) :=
  (fetch_tool_missing_fatal fenvNoTools cfgNone (mkSrc ymlBranch)).1
    "https://example/repo.git" rfl rfl

/-- Claim C6: for a git tag source, the evaluator at remote-check level 1
is identical (result and effects) to the evaluator at level 0: tags are
checked remotely only at level at least 2. -/
theorem check_repo_tag_level1_eq_level0 (env : FsEnv) (src : Src) (git_url t : String)
    (hgit : src.this_yml.git = some git_url) (ht : src.this_yml.tag = some t) :
    check_repo env src 1 = check_repo env src 0 := by
  simp [check_repo, hgit, git_refs, ht]

/-- Witness for C6 at a concrete tag source. -/
theorem check_repo_tag_level1_eq_level0_witness :
    check_repo envRemoteSame (mkSrc ymlTag) 1 = check_repo envRemoteSame (mkSrc ymlTag) 0 :=
  check_repo_tag_level1_eq_level0 envRemoteSame (mkSrc ymlTag)
    "https://example/repo.git" "v1.0" rfl rfl

/-- Claim C9: for a descriptor without a git origin, the evaluator never
reports OUTDATED: every non-crashing run yields GOOD or MISSING. -/
theorem check_repo_nongit_never_outdated (env : FsEnv) (src : Src) (lvl : Nat)
    (hgit : src.this_yml.git = none) :
    (check_repo env src lvl).2 ≠ .ok RepoStatus.OUTDATED := by
  simp only [check_repo, hgit]
  repeat' split
  all_goals simp

/-- Witness for C9 at a concrete mercurial source. -/
theorem check_repo_nongit_never_outdated_witness :
    (check_repo envNoRemote (mkSrc ymlHg) 0).2 ≠ .ok RepoStatus.OUTDATED :=
  check_repo_nongit_never_outdated envNoRemote (mkSrc ymlHg) 0 rfl

/-- Claim C8: the evaluator mutates nothing: every effect it performs is
a read-only query or a log line. -/
theorem check_repo_no_mutation (env : FsEnv) (src : Src) (lvl : Nat) :
    ((check_repo env src lvl).1).all (fun e => !e.isMutation) = true := by
  simp only [check_repo]
  repeat' split
  all_goals simp [Effect.isMutation, List.all_cons, List.all_nil, List.all_append]

/-- Counterexample to claim C3 as stated: for an archive descriptor
whose source directory is absent but whose archive file is present, the
evaluator returns GOOD, not MISSING: the archive branch consults the
archive file, never the source directory. -/
theorem check_repo_absent_counterexample :
    check_repo envArchiveOnly (mkSrc ymlArchive) 0 = ([], .ok RepoStatus.GOOD)
    ∧ envArchiveOnly.isdir (mkSrc ymlArchive).source_dir = false :=
  ⟨rfl, rfl⟩

/-- Claim C3 (amended): for every git, mercurial, or subversion
descriptor with the source directory absent, the evaluator returns
MISSING with an empty effect list (in particular no network call), at
every remote-check level; for an archive descriptor the same holds when
the archive file is inaccessible. -/
theorem check_repo_absent_missing (env : FsEnv) (src : Src) (lvl : Nat) :
    (src.this_yml.git.isSome = true → env.isdir src.source_dir = false →
      check_repo env src lvl = ([], .ok .MISSING))
    ∧ (src.this_yml.git = none → src.this_yml.hg.isSome = true →
      env.isdir src.source_dir = false → check_repo env src lvl = ([], .ok .MISSING))
    ∧ (src.this_yml.git = none → src.this_yml.hg = none →
      src.this_yml.svn.isSome = true → env.isdir src.source_dir = false →
      check_repo env src lvl = ([], .ok .MISSING))
    ∧ (src.this_yml.git = none → src.this_yml.hg = none → src.this_yml.svn = none →
      src.this_yml.url.isSome = true → env.access src.source_archive_file = false →
      check_repo env src lvl = ([], .ok .MISSING)) := by
  refine ⟨?_, ?_, ?_, ?_⟩
  · intro hsome hdir
    rcases hg : src.this_yml.git with _ | u
    · rw [hg] at hsome
      simp at hsome
    · simp [check_repo, hg, hdir]
  · intro hg hsome hdir
    rcases hh : src.this_yml.hg with _ | u
    · rw [hh] at hsome
      simp at hsome
    · simp [check_repo, hg, hh, hdir]
  · intro hg hh hsome hdir
    rcases hs : src.this_yml.svn with _ | u
    · rw [hs] at hsome
      simp at hsome
    · simp [check_repo, hg, hh, hs, hdir]
  · intro hg hh hs hsome hacc
    rcases hu : src.this_yml.url with _ | u
    · rw [hu] at hsome
      simp at hsome
    · simp [check_repo, hg, hh, hs, hu, hacc]

/-- Witness for the amended C3: a git branch source with an absent
working copy is MISSING with no effects. -/
theorem check_repo_absent_missing_witness :
    check_repo envAbsent (mkSrc ymlBranch) 2 = ([], .ok .MISSING) :=
  (check_repo_absent_missing envAbsent (mkSrc ymlBranch) 2).1 rfl rfl

/-- Claim C5: for a git descriptor with the source directory present,
the evaluator looks up the local commit at the tracking ref, which is
refs/tags/<tag> for a tag and refs/remotes/origin/<branch> for a
branch: that query is always the first effect performed, and when the
verified ref-lookup fails the evaluator returns MISSING. -/
theorem check_repo_tracking_ref_lookup (env : FsEnv) (src : Src) (lvl : Nat)
    (git_url : String) (hgit : src.this_yml.git = some git_url)
    (hdir : env.isdir src.source_dir = true) :
    (∀ t, src.this_yml.tag = some t →
      (check_repo env src lvl).1.head? =
        some (Effect.showRefQuery src.source_dir ("refs/tags/" ++ t)))
    ∧ (∀ t, src.this_yml.tag = some t →
      env.showRef src.source_dir ("refs/tags/" ++ t) = none →
      check_repo env src lvl =
        ([Effect.showRefQuery src.source_dir ("refs/tags/" ++ t)], .ok .MISSING))
    ∧ (∀ b, src.this_yml.tag = none → src.this_yml.branch = some b →
      (check_repo env src lvl).1.head? =
        some (Effect.showRefQuery src.source_dir ("refs/remotes/origin/" ++ b)))
    ∧ (∀ b, src.this_yml.tag = none → src.this_yml.branch = some b →
      env.showRef src.source_dir ("refs/remotes/origin/" ++ b) = none →
      check_repo env src lvl =
        ([Effect.showRefQuery src.source_dir ("refs/remotes/origin/" ++ b)],
          .ok .MISSING)) := by
  refine ⟨?_, ?_, ?_, ?_⟩
  · intro t ht
    simp only [check_repo, hgit, hdir, git_refs, ht]
    repeat' split
    all_goals simp_all
  · intro t ht href
    simp [check_repo, hgit, hdir, git_refs, ht, get_local_commit, href]
  · intro b ht hb
    simp only [check_repo, hgit, hdir, git_refs, ht, hb]
    repeat' split
    all_goals simp_all
  · intro b ht hb href
    simp [check_repo, hgit, hdir, git_refs, ht, hb, get_local_commit, href]

/-- Witness for C5: with nothing on disk resolvable but the directory
present, a branch source is MISSING after exactly the tracking-ref
query. -/
theorem check_repo_tracking_ref_lookup_witness :
    check_repo { envAbsent with isdir := fun _ => true } (mkSrc ymlBranch) 0 =
      ([Effect.showRefQuery "/var/lib/src/demo" ("refs/remotes/origin/" ++ "main")],
        .ok .MISSING) :=
  (check_repo_tracking_ref_lookup { envAbsent with isdir := fun _ => true }
    (mkSrc ymlBranch) 0 "https://example/repo.git" rfl rfl).2.2.2 "main" rfl rfl rfl

/-- Counterexample to claim C1 as stated: with the working copy present,
the local tracking ref resolvable and every remote query failing, the
evaluator at level 1 on a branch source reports OUTDATED, not GOOD: a
failed remote query leaves `remote_commit` unresolved, which compares
unequal to the resolved local commit. -/
theorem check_repo_remote_failure_counterexample :
    (check_repo envNoRemote (mkSrc ymlBranch) 1).2 = .ok RepoStatus.OUTDATED
    ∧ envNoRemote.lsRemote "https://example/repo.git" "refs/heads/main" = none
    ∧ RepoStatus.OUTDATED ≠ RepoStatus.GOOD := by
  refine ⟨rfl, rfl, by decide⟩

/-- Claim C1 (amended): when a remote check is warranted and the local
commit resolves, a failing remote query makes the evaluator report
OUTDATED (the unresolved remote commit counts as a differing one); when
the remote query resolves a single protocol-conforming line, the result
is GOOD exactly when the remote commit equals the local one and OUTDATED
otherwise. -/
theorem check_repo_remote_failure_outdated (env : FsEnv) (src : Src) (lvl : Nat)
    (git_url ref tref line lc lr : String)
    (hgit : src.this_yml.git = some git_url)
    (hdir : env.isdir src.source_dir = true)
    (hrefs : git_refs src.this_yml = .ok (ref, tref))
    (hloc : env.showRef src.source_dir tref = some [line])
    (hsplit : pysplit ' ' line = [lc, lr])
    (hwarr : (decide (2 ≤ lvl) || (decide (1 ≤ lvl) && src.this_yml.tag.isNone)) = true) :
    (env.lsRemote git_url ref = none →
      (check_repo env src lvl).2 = .ok RepoStatus.OUTDATED)
    ∧ (∀ rline rc rr, env.lsRemote git_url ref = some [rline] →
      pysplit '\t' rline = [rc, rr] →
      (check_repo env src lvl).2 =
        .ok (if rc = lc then RepoStatus.GOOD else RepoStatus.OUTDATED)) := by
  constructor
  · intro hrem
    simp [check_repo, hgit, hdir, hrefs, get_local_commit, hloc, hsplit, hwarr,
      get_remote_commit, hrem]
  · intro rline rc rr hrem hrsplit
    simp only [check_repo, hgit, hdir, hrefs, get_local_commit, hloc, hsplit, hwarr,
      get_remote_commit, hrem, hrsplit]
    by_cases h : rc = lc <;> simp [h]

/-- Witness for the amended C1 at a concrete branch source with a failing
remote. -/
theorem check_repo_remote_failure_outdated_witness :
    (check_repo envNoRemote (mkSrc ymlBranch) 1).2 = .ok RepoStatus.OUTDATED :=
  (check_repo_remote_failure_outdated envNoRemote (mkSrc ymlBranch) 1
    "https://example/repo.git" "refs/heads/main" "refs/remotes/origin/main"
    "abc refs/remotes/origin/main" "abc" "refs/remotes/origin/main"
    rfl rfl rfl rfl rfl rfl).1 rfl

/-- Helper: the built `git fetch` argument list carries the
depth-limiting flag exactly when shallowness survives every check: the
disable flag and the rolling flag are down and, for a branch ref, no
commit is pinned (descriptor or record) and this is the first
initialization; the executable path, the origin url and the tag name
are assumed not to be the literal flag string. -/
theorem passesDepth_git_fetch_args (git git_url : String) (source : Yml)
    (fc : Option String) (rolling init : Bool)
    (hgit : git ≠ "--depth=1") (hurl : git_url ≠ "--depth=1")
    (htag : ∀ t, source.tag = some t → t ≠ "--depth=1") :
    passesDepthB (git_fetch_args git git_url source fc rolling init) = true ↔
      (source.disable_shallow_fetch = false ∧ rolling = false ∧
        (source.tag = none →
          (source.branch.isSome = true ∧ source.commit = none ∧ fc = none ∧
            init = true))) := by
  have hfetch : "fetch" ≠ "--depth=1" := by decide
  have htagw : "tag" ≠ "--depth=1" := by decide
  rcases ht : source.tag with _ | t
  · rcases hb : source.branch with _ | b
    · simp [git_fetch_args, passesDepthB, ht, hb]
    · have hrs := refspec_ne_depth b
      rcases hc : source.commit with _ | c <;> rcases hf : fc with _ | c2 <;>
        cases rolling <;> cases hd : source.disable_shallow_fetch <;> cases init <;>
        simp [git_fetch_args, passesDepthB, ht, hb, hc, hf, hd, List.any_append,
          List.any_cons, List.any_nil, beq_iff_eq, hgit, hurl, hrs, hfetch]
  · have hts := htag t ht
    cases rolling <;> cases hd : source.disable_shallow_fetch <;>
      simp [git_fetch_args, passesDepthB, ht, hd, List.any_append, List.any_cons,
        List.any_nil, beq_iff_eq, hgit, hurl, hts, hfetch, htagw]

/-- Helper: when some subprocess call performed by `fetch_repo` on a git
source carries the depth-limiting flag, the built fetch argument list
carries it: the initialization calls never do. -/
theorem fetch_depth_from_args (env : FetchEnv) (cfg : Cfg) (src : Src)
    (git_url g : String)
    (hgit : src.this_yml.git = some git_url) (hwhich : env.which "git" = some g)
    (hg : g ≠ "--depth=1") (hurl : git_url ≠ "--depth=1") :
    fetchPassesDepthB (fetch_repo env cfg src).1 = true →
      passesDepthB (git_fetch_args g git_url src.this_yml (cfg.fixed_commit src.name)
        src.is_rolling_version (!env.isdir src.source_dir)) = true := by
  have hinit : "init" ≠ "--depth=1" := by decide
  have hrem : "remote" ≠ "--depth=1" := by decide
  have hadd : "add" ≠ "--depth=1" := by decide
  have hori : "origin" ≠ "--depth=1" := by decide
  intro h
  simp only [fetch_repo, hgit, hwhich] at h
  repeat' split at h
  all_goals simp_all [fetchPassesDepthB, callArgsDepthB, passesDepthB,
    List.any_append, List.any_cons, List.any_nil, beq_iff_eq, hg, hurl]

/-- Claim C7: for a rolling-version git source, `fetch_repo` never
passes the depth-limiting flag to any subprocess, on first
initialization or later and for tag and branch refs alike (assuming the
executable path, the origin url and the tag name are not themselves the
literal flag string). -/
theorem fetch_rolling_never_depth (env : FetchEnv) (cfg : Cfg) (src : Src)
    (git_url g : String)
    (hgit : src.this_yml.git = some git_url) (hwhich : env.which "git" = some g)
    (hroll : src.is_rolling_version = true)
    (hg : g ≠ "--depth=1") (hurl : git_url ≠ "--depth=1")
    (htag : ∀ t, src.this_yml.tag = some t → t ≠ "--depth=1") :
    fetchPassesDepthB (fetch_repo env cfg src).1 = false := by
  cases hB : fetchPassesDepthB (fetch_repo env cfg src).1 with
  | false => rfl
  | true =>
    have h2 := fetch_depth_from_args env cfg src git_url g hgit hwhich hg hurl hB
    rw [passesDepth_git_fetch_args g git_url src.this_yml (cfg.fixed_commit src.name)
      src.is_rolling_version (!env.isdir src.source_dir) hg hurl htag] at h2
    rw [hroll] at h2
    simp at h2

/-- Witness for C7 at a concrete rolling branch source being
initialized. -/
theorem fetch_rolling_never_depth_witness :
    fetchPassesDepthB (fetch_repo fenvInit cfgNone (mkSrc ymlBranch true)).1 = false :=
  fetch_rolling_never_depth fenvInit cfgNone (mkSrc ymlBranch true)
    "https://example/repo.git" "git" rfl rfl rfl (by decide) (by decide)
    (fun t ht => by simp [mkSrc, ymlBranch] at ht)

/-- Counterexample to claim C2 as stated: on a tag source with a
`fixed_commit` pin recorded, first-time `fetch_repo` still passes the
depth-limiting flag: the tag branch of the code never consults the pin
record. -/
theorem fetch_depth_flag_tag_pin_counterexample :
    fetchPassesDepthB (fetch_repo fenvInit cfgPin (mkSrc ymlTag)).1 = true
    ∧ cfgPin.fixed_commit (mkSrc ymlTag).name = some "deadbeef" :=
  ⟨rfl, rfl⟩

/-- Claim C2 (amended): `fetch_repo` passes the depth-limiting flag only
when `disable_shallow_fetch` is false and the source is not a rolling
version, and, for a branch ref, additionally only when no commit is
pinned in the descriptor, no `fixed_commit` is recorded, and the source
directory did not yet exist; the pin conditions do not restrict tag
refs (assuming the executable path, the origin url and the tag name are
not themselves the literal flag string). -/
theorem fetch_depth_flag_only_when (env : FetchEnv) (cfg : Cfg) (src : Src)
    (git_url g : String)
    (hgit : src.this_yml.git = some git_url) (hwhich : env.which "git" = some g)
    (hg : g ≠ "--depth=1") (hurl : git_url ≠ "--depth=1")
    (htag : ∀ t, src.this_yml.tag = some t → t ≠ "--depth=1") :
    fetchPassesDepthB (fetch_repo env cfg src).1 = true →
      (src.this_yml.disable_shallow_fetch = false ∧ src.is_rolling_version = false ∧
        (src.this_yml.tag = none →
          (src.this_yml.commit = none ∧ cfg.fixed_commit src.name = none ∧
            env.isdir src.source_dir = false))) := by
  intro h
  have h2 := fetch_depth_from_args env cfg src git_url g hgit hwhich hg hurl h
  rw [passesDepth_git_fetch_args g git_url src.this_yml (cfg.fixed_commit src.name)
    src.is_rolling_version (!env.isdir src.source_dir) hg hurl htag] at h2
  obtain ⟨hd, hr, hrest⟩ := h2
  refine ⟨hd, hr, fun htg => ?_⟩
  obtain ⟨-, hc, hf, hi⟩ := hrest htg
  refine ⟨hc, hf, ?_⟩
  simpa using hi

/-- Witness for the amended C2: a branch source being initialized with
no pin does pass the flag, and the conditions hold there. -/
theorem fetch_depth_flag_only_when_witness :
    (mkSrc ymlBranch).this_yml.disable_shallow_fetch = false ∧
      (mkSrc ymlBranch).is_rolling_version = false ∧
      ((mkSrc ymlBranch).this_yml.tag = none →
        ((mkSrc ymlBranch).this_yml.commit = none ∧
          cfgNone.fixed_commit (mkSrc ymlBranch).name = none ∧
          fenvInit.isdir (mkSrc ymlBranch).source_dir = false)) :=
  fetch_depth_flag_only_when fenvInit cfgNone (mkSrc ymlBranch)
    "https://example/repo.git" "git" rfl rfl (by decide) (by decide)
    (fun t ht => by simp [mkSrc, ymlBranch] at ht) rfl
